import Mathlib

/-!
Verification development for an RTI (Right-to-Information) response analysis
program. The program's core consists of three Python modules:

* `modules/rti_semantic.py` — sentence segmentation, statutory-section
  detection, keyword-based sentence classification, and aggregation into a
  `StructuredRTIResponse`;
* `modules/fact_extractor.py` — an independent sentence segmenter plus a
  fact-density scorer selecting the top-N "fact anchor" sentences;
* `modules/actionability.py` — a rule engine producing prioritized action
  suggestions, an appeal-eligibility verdict and an overall assessment.

The embedding below is a shallow translation of those modules.  Strings are
modelled as `List Char` (`Str`), Python floats as `ℚ` (all score arithmetic in
the program stays far away from any value where double rounding could flip a
comparison: achievable scores are k/14, k/8 and fixed bonuses 0.3/0.2, whose
pairwise gaps and gaps to the 0.1 floor exceed 1/280, many orders of magnitude
above double-precision error), and the small closed regular expressions of the
source are compiled by hand into executable matchers with Python `re`
semantics (leftmost match, alternation order, greedy quantifiers with the
backtracking cases that can actually arise for these patterns).
-/

/-- Python strings are modelled as lists of characters. -/
abbrev Str := List Char

/-- ASCII lower-casing of one character, the effect of Python `str.lower` on
the ASCII inputs handled here. -/
def lc (c : Char) : Char :=
  if 'A' ≤ c ∧ c ≤ 'Z' then Char.ofNat (c.toNat + 32) else c

/-- Python `str.lower` (ASCII fragment). -/
def lowerStr (s : Str) : Str := s.map lc

/-- The characters matched by Python's `\s` and stripped by `str.strip` for
ASCII input. -/
def isWs (c : Char) : Bool :=
  c = ' ' || c = '\t' || c = '\n' || c = '\r' || c = '\x0b' || c = '\x0c'

/-- Python `str.strip`. -/
def pyStrip (s : Str) : Str :=
  ((s.dropWhile isWs).reverse.dropWhile isWs).reverse

/-- Convenience: characters of a Lean string literal. -/
def chars (s : String) : Str := s.data

/-- Python substring test `needle in hay` (both already in the wanted case). -/
def containsSub (hay needle : Str) : Bool :=
  match hay with
  | [] => needle.isEmpty
  | _ :: t => needle.isPrefixOf hay || containsSub t needle

theorem dropWhile_length_le {α : Type} (p : α → Bool) :
    ∀ l : List α, (l.dropWhile p).length ≤ l.length := by
  intro l
  induction l with
  | nil => simp
  | cons c t ih =>
    by_cases h : p c = true
    · simp only [List.dropWhile, h]; exact Nat.le_succ_of_le ih
    · simp only [List.dropWhile, h]; simp

/-- Python `len(s.split())`: the number of maximal runs of non-whitespace. -/
def wordCount : Str → ℕ
  | [] => 0
  | c :: t =>
    if isWs c then wordCount t
    else 1 + wordCount (t.dropWhile (fun d => !isWs d))
termination_by s => s.length
decreasing_by
  · simp only [List.length_cons]; omega
  · have := dropWhile_length_le (fun d => !isWs d) t
    simp only [List.length_cons]; omega

/-- Does a pattern (given as a predicate on suffixes) match anywhere in the
text?  This is the existence part of Python `re.search`. -/
def containsPat (m : Str → Bool) : Str → Bool
  | [] => m []
  | c :: t => m (c :: t) || containsPat m t

/-- Matches `\s*` followed by the literal `b`, anchored at the start of `s`
(zero or more whitespace characters, then `b`). -/
def wsStarThen (b : Str) : Str → Bool
  | [] => b.isEmpty
  | c :: t => b.isPrefixOf (c :: t) || (isWs c && wsStarThen b t)

/-- Anchored match for `a\s*b` (literal, whitespace run, literal). -/
def litWsLit (a b : Str) (s : Str) : Bool :=
  a.isPrefixOf s && wsStarThen b (s.drop a.length)

/-- Somewhere in `l`, the pattern `a\s*b` matches. -/
def containsLitWsLit (l a b : Str) : Bool := containsPat (litWsLit a b) l

/- ### Sentence segmentation: the two `split_into_sentences` functions -/

/-- Drop a literal pattern from the front of a string, returning the
remainder on success. -/
def dropPre : Str → Str → Option Str
  | [], s => some s
  | _ :: _, [] => none
  | a :: as, b :: bs => if a = b then dropPre as bs else none

theorem dropPre_length :
    ∀ (p s r : Str), dropPre p s = some r → r.length + p.length = s.length := by
  intro p
  induction p with
  | nil => intro s r h; simp [dropPre] at h; simp [h]
  | cons a as ih =>
    intro s r h
    match s with
    | [] => simp [dropPre] at h
    | b :: bs =>
      simp only [dropPre] at h
      by_cases hab : a = b
      · rw [if_pos hab] at h
        have := ih bs r h
        simp only [List.length_cons]; omega
      · rw [if_neg hab] at h; exact absurd h (by simp)

/-- Anchored match of one abbreviation alternative `alt` followed by a
literal period (and, when `reqWs` is set, one whitespace character, the `\s`
of the first segmenter's patterns); returns the remaining input. -/
def matchAbb (alt : Str) (reqWs : Bool) (s : Str) : Option Str :=
  match dropPre (alt ++ ['.']) s with
  | none => none
  | some r =>
    if reqWs then
      match r with
      | c :: r2 => if isWs c then some r2 else none
      | [] => none
    else some r

theorem matchAbb_length {alt : Str} {w : Bool} {s r : Str}
    (h : matchAbb alt w s = some r) : r.length < s.length := by
  unfold matchAbb at h
  cases hd : dropPre (alt ++ ['.']) s with
  | none => rw [hd] at h; exact absurd h (by simp)
  | some r0 =>
    rw [hd] at h
    have hlen := dropPre_length _ _ _ hd
    have hp : 0 < (alt ++ ['.']).length := by simp
    cases w with
    | false => simp at h; subst h; omega
    | true =>
      match r0 with
      | [] => simp at h
      | c :: r2 =>
        simp only at h
        by_cases hws : isWs c = true
        · rw [if_pos hws] at h
          have : r2 = r := by simpa using h
          subst this
          simp only [List.length_cons] at hlen
          omega
        · rw [if_neg hws] at h; exact absurd h (by simp)

/-- First alternative (in pattern order, which is the backtracking order of
the Python alternation) matching at the start of `s`, with the remaining
input. -/
def firstAbb : List Str → Bool → Str → Option (Str × Str)
  | [], _, _ => none
  | a :: rest, w, s =>
    match matchAbb a w s with
    | some r => some (a, r)
    | none => firstAbb rest w s

theorem firstAbb_length :
    ∀ {alts : List Str} {w : Bool} {s : Str} {ar : Str × Str},
      firstAbb alts w s = some ar → ar.2.length < s.length := by
  intro alts
  induction alts with
  | nil => intro w s ar h; simp [firstAbb] at h
  | cons a rest ih =>
    intro w s ar h
    unfold firstAbb at h
    cases hm : matchAbb a w s with
    | some r =>
      rw [hm] at h
      have hh : (a, r) = ar := by simpa using h
      rw [← hh]
      exact matchAbb_length hm
    | none => rw [hm] at h; exact ih h

/-- The placeholder `<DOT>` substituted for protected abbreviation periods. -/
def dotPlaceholder : Str := chars "<DOT>"

/-- One `re.sub` pass protecting the abbreviations `alts`: each occurrence of
`alt` + `.` (+ one whitespace character when `reqWs`, for the patterns ending
in `\.\s`) is replaced by `alt` + `<DOT>` (+ a literal space when `reqWs`, as
in the replacement template `\1<DOT> `), scanning left to right and resuming
after each match, exactly as `re.sub` does. -/
def subAbbrev (alts : List Str) (reqWs : Bool) : Str → Str
  | [] => []
  | c :: t =>
    match h : firstAbb alts reqWs (c :: t) with
    | some ar =>
        ar.1 ++ dotPlaceholder ++ (if reqWs then [' '] else [])
          ++ subAbbrev alts reqWs ar.2
    | none => c :: subAbbrev alts reqWs t
termination_by s => s.length
decreasing_by
  · exact firstAbb_length h
  · simp only [List.length_cons]; omega

/-- A sentence-terminating character: `.`, `!` or `?`. -/
def isTerm (c : Char) : Bool := c = '.' || c = '!' || c = '?'

/-- Is the previous character (head of the reversed accumulator) a
terminator? -/
def headIsTerm : Str → Bool
  | [] => false
  | p :: _ => isTerm p

/-- `re.split(r'(?<=[.!?])\s+', text)`: cut at every maximal whitespace run
whose preceding character is a terminator, consuming the run.  The
accumulator holds the current piece reversed; a trailing cut yields a final
empty piece, as in Python. -/
def splitTermWsAux (cur : Str) : Str → List Str
  | [] => [cur.reverse]
  | c :: t =>
    if isWs c && headIsTerm cur then
      cur.reverse :: splitTermWsAux [] (t.dropWhile isWs)
    else splitTermWsAux (c :: cur) t
termination_by s => s.length
decreasing_by
  · have := dropWhile_length_le isWs t
    simp only [List.length_cons]; omega
  · simp only [List.length_cons]; omega

def splitTermWs (s : Str) : List Str := splitTermWsAux [] s

/-- `s.replace('<DOT>', '.')`. -/
def restoreDots : Str → Str
  | [] => []
  | c :: t =>
    if dotPlaceholder.isPrefixOf (c :: t) then '.' :: restoreDots (t.drop 4)
    else c :: restoreDots t
termination_by s => s.length
decreasing_by
  · have := List.length_drop 4 t
    simp only [List.length_cons]; omega
  · simp only [List.length_cons]; omega

/-- The alternatives of the title-abbreviation pattern
`(Mr|Mrs|Dr|Prof|Sr|Jr|vs|etc|i\.e|e\.g)`, in pattern order. -/
def title_abbrevs : List Str :=
  [chars "Mr", chars "Mrs", chars "Dr", chars "Prof", chars "Sr", chars "Jr",
   chars "vs", chars "etc", chars "i.e", chars "e.g"]

/-- The alternatives of `([Ss]ec|[Nn]o)`. -/
def secno_abbrevs : List Str :=
  [chars "Sec", chars "sec", chars "No", chars "no"]

/- ### config.py — keyword lists and section patterns -/

namespace config

/-- `DENIAL_KEYWORDS` of `config.py`. -/
def DENIAL_KEYWORDS : List Str :=
  [chars "cannot be provided", chars "denied", chars "rejected", chars "exempt",
   chars "exemption", chars "not available", chars "refused", chars "decline",
   chars "not possible", chars "section 8", chars "confidential",
   chars "classified", chars "sensitive", chars "national security"]

/-- `INFORMATIVE_KEYWORDS` of `config.py`. -/
def INFORMATIVE_KEYWORDS : List Str :=
  [chars "information is", chars "details are", chars "as per records",
   chars "enclosed", chars "attached", chars "provided herewith",
   chars "following information", chars "data shows"]

/-- `PROCEDURAL_KEYWORDS` of `config.py`. -/
def PROCEDURAL_KEYWORDS : List Str :=
  [chars "transferred to", chars "forwarded to", chars "fee required",
   chars "please deposit", chars "time extension", chars "additional time",
   chars "competent authority", chars "CPIO"]

/-- `EVASIVE_KEYWORDS` of `config.py`. -/
def EVASIVE_KEYWORDS : List Str :=
  [chars "no such information", chars "not maintained", chars "not available",
   chars "beyond scope", chars "voluminous", chars "vague", chars "clarify",
   chars "resubmit"]

/-- Match of the `RTI_SECTIONS["section_8"]` pattern
`[Ss]ection\s*8|[Ss]ec\.\s*8|exemption|exempt` under `re.IGNORECASE`. -/
def section_8_match (t : Str) : Bool :=
  let l := lowerStr t
  containsLitWsLit l (chars "section") (chars "8")
    || containsLitWsLit l (chars "sec.") (chars "8")
    || containsSub l (chars "exemption") || containsSub l (chars "exempt")

/-- Match of `RTI_SECTIONS["section_9"]`:
`[Ss]ection\s*9|[Ss]ec\.\s*9|reject|rejection` (case-insensitive). -/
def section_9_match (t : Str) : Bool :=
  let l := lowerStr t
  containsLitWsLit l (chars "section") (chars "9")
    || containsLitWsLit l (chars "sec.") (chars "9")
    || containsSub l (chars "reject") || containsSub l (chars "rejection")

/-- Match of `RTI_SECTIONS["section_11"]`:
`[Ss]ection\s*11|[Ss]ec\.\s*11|third\s*party` (case-insensitive). -/
def section_11_match (t : Str) : Bool :=
  let l := lowerStr t
  containsLitWsLit l (chars "section") (chars "11")
    || containsLitWsLit l (chars "sec.") (chars "11")
    || containsLitWsLit l (chars "third") (chars "party")

/-- Match of `RTI_SECTIONS["section_19"]`:
`[Ss]ection\s*19|[Ss]ec\.\s*19|appeal` (case-insensitive). -/
def section_19_match (t : Str) : Bool :=
  let l := lowerStr t
  containsLitWsLit l (chars "section") (chars "19")
    || containsLitWsLit l (chars "sec.") (chars "19")
    || containsSub l (chars "appeal")

/-- Match of `RTI_SECTIONS["section_7"]`:
`[Ss]ection\s*7|[Ss]ec\.\s*7|time\s*limit|30\s*days` (case-insensitive). -/
def section_7_match (t : Str) : Bool :=
  let l := lowerStr t
  containsLitWsLit l (chars "section") (chars "7")
    || containsLitWsLit l (chars "sec.") (chars "7")
    || containsLitWsLit l (chars "time") (chars "limit")
    || containsLitWsLit l (chars "30") (chars "days")

end config

/- ### rti_semantic.py — sentence classification -/

namespace rti_semantic

/-- `SentenceCategory` enum of `rti_semantic.py`. -/
inductive SentenceCategory where
  | informative
  | denial
  | procedural
  | evasive
  | neutral
deriving DecidableEq, Repr

/-- `ClassifiedSentence` dataclass of `rti_semantic.py`. -/
structure ClassifiedSentence where
  text : Str
  category : SentenceCategory
  confidence : ℚ
  section_references : List String := []
  keywords_found : List Str := []
deriving DecidableEq, Repr

/-- `detect_rti_sections` of `rti_semantic.py`, restricted to the key set of
the returned dictionary: the five statutory-section names, in the insertion
order of `RTI_SECTIONS`, each present exactly when its pattern matches the
text at least once.  The context-excerpt values of the dictionary are elided:
no code relevant to the claims (and nothing in `actionability.py` or in
`classify_sentence`) reads anything but the key set. -/
def detect_rti_section_names (t : Str) : List String :=
  (([("section_8", config.section_8_match t),
     ("section_9", config.section_9_match t),
     ("section_11", config.section_11_match t),
     ("section_19", config.section_19_match t),
     ("section_7", config.section_7_match t)] : List (String × Bool)).filter
    (fun x => x.2)).map (fun x => x.1)

/-- `keyword_score` of `rti_semantic.py`: case-insensitive substring count
over a closed keyword list, normalized by the list length; the matched
keywords are returned in list order.  Division by the list length is guarded
exactly as in the source (`if keywords else 0`). -/
def keyword_score (text : Str) (keywords : List Str) : ℚ × List Str :=
  let text_lower := lowerStr text
  let found := keywords.filter (fun k => containsSub text_lower (lowerStr k))
  (if keywords.isEmpty then 0 else (found.length : ℚ) / (keywords.length : ℚ),
   found)

/-- `re.search(r'transfer|forward', sentence, re.I)` in `classify_sentence`. -/
def mentions_transfer (t : Str) : Bool :=
  containsSub (lowerStr t) (chars "transfer")
    || containsSub (lowerStr t) (chars "forward")

/-- Adjusted Denial score: keyword score plus the fixed +0.3 bonus when the
exemption section (`section_8`) is referenced in the sentence. -/
def denial_score (t : Str) : ℚ :=
  (keyword_score t config.DENIAL_KEYWORDS).1
    + (if "section_8" ∈ detect_rti_section_names t then 3/10 else 0)

/-- Adjusted Informative score (no bonus). -/
def informative_score (t : Str) : ℚ :=
  (keyword_score t config.INFORMATIVE_KEYWORDS).1

/-- Adjusted Procedural score: keyword score plus the fixed +0.2 bonus when
the response-time-limit section (`section_7`) is referenced or the sentence
mentions transfer/forward. -/
def procedural_score (t : Str) : ℚ :=
  (keyword_score t config.PROCEDURAL_KEYWORDS).1
    + (if "section_7" ∈ detect_rti_section_names t ∨ mentions_transfer t = true
       then 2/10 else 0)

/-- Adjusted Evasive score (no bonus). -/
def evasive_score (t : Str) : ℚ :=
  (keyword_score t config.EVASIVE_KEYWORDS).1

/-- The `scores` dictionary of `classify_sentence`, in its insertion order
Denial, Informative, Procedural, Evasive. -/
def score_table (t : Str) : List (SentenceCategory × ℚ × List Str) :=
  [(SentenceCategory.denial, denial_score t,
      (keyword_score t config.DENIAL_KEYWORDS).2),
   (SentenceCategory.informative, informative_score t,
      (keyword_score t config.INFORMATIVE_KEYWORDS).2),
   (SentenceCategory.procedural, procedural_score t,
      (keyword_score t config.PROCEDURAL_KEYWORDS).2),
   (SentenceCategory.evasive, evasive_score t,
      (keyword_score t config.EVASIVE_KEYWORDS).2)]

/-- The selection loop of `classify_sentence`: starting from
`(NEUTRAL, 0.0, [])`, replace the best entry whenever a strictly higher score
appears (`if score > best_score`), so on an exact tie the earlier entry
wins. -/
def pickBest (l : List (SentenceCategory × ℚ × List Str)) :
    SentenceCategory × ℚ × List Str :=
  l.foldl (fun b x => if b.2.1 < x.2.1 then x else b)
    (SentenceCategory.neutral, 0, [])

/-- `classify_sentence` of `rti_semantic.py`. -/
def classify_sentence (sentence : Str) : ClassifiedSentence :=
  let t := pyStrip sentence
  if t.isEmpty then
    { text := t, category := SentenceCategory.neutral, confidence := 0 }
  else
    let b := pickBest (score_table t)
    if b.2.1 < 1/10 then
      { text := t, category := SentenceCategory.neutral, confidence := 1/2,
        section_references := detect_rti_section_names t,
        keywords_found := b.2.2 }
    else
      { text := t, category := b.1, confidence := min b.2.1 1,
        section_references := detect_rti_section_names t,
        keywords_found := b.2.2 }

/-- The maximal adjusted category score of a (stripped) sentence. -/
def maxAdjScore (t : Str) : ℚ :=
  max (max (denial_score t) (informative_score t))
    (max (procedural_score t) (evasive_score t))

/-- `split_into_sentences` of `rti_semantic.py`: protect title abbreviations
(pattern `(Mr|Mrs|Dr|Prof|Sr|Jr|vs|etc|i\.e|e\.g)\.\s`, replacement
`\1<DOT> `) and `([Ss]ec|[Nn]o)\.\s`, split on whitespace following a
terminator, restore the placeholders, then keep the stripped pieces longer
than 10 characters. -/
def split_into_sentences (text : Str) : List Str :=
  let t1 := subAbbrev title_abbrevs true text
  let t2 := subAbbrev secno_abbrevs true t1
  let pieces := (splitTermWs t2).map restoreDots
  (pieces.map pyStrip).filter (fun s => 10 < s.length)

/-- `StructuredRTIResponse` of `rti_semantic.py`; the `section_references`
dictionary is represented by its ordered key list (see
`detect_rti_section_names`). -/
structure StructuredRTIResponse where
  original_text : Str
  informative_sentences : List ClassifiedSentence := []
  denial_sentences : List ClassifiedSentence := []
  procedural_sentences : List ClassifiedSentence := []
  evasive_sentences : List ClassifiedSentence := []
  neutral_sentences : List ClassifiedSentence := []
  section_references : List String := []
deriving DecidableEq, Repr

/-- The classification loop of `extract_structured_response`: append each
classified sentence to the bucket of its category. -/
def addSentence (r : StructuredRTIResponse) (c : ClassifiedSentence) :
    StructuredRTIResponse :=
  match c.category with
  | SentenceCategory.informative =>
      { r with informative_sentences := r.informative_sentences ++ [c] }
  | SentenceCategory.denial =>
      { r with denial_sentences := r.denial_sentences ++ [c] }
  | SentenceCategory.procedural =>
      { r with procedural_sentences := r.procedural_sentences ++ [c] }
  | SentenceCategory.evasive =>
      { r with evasive_sentences := r.evasive_sentences ++ [c] }
  | SentenceCategory.neutral =>
      { r with neutral_sentences := r.neutral_sentences ++ [c] }

/-- `extract_structured_response` of `rti_semantic.py`. -/
def extract_structured_response (text : Str) : StructuredRTIResponse :=
  let init : StructuredRTIResponse :=
    { original_text := text,
      section_references := detect_rti_section_names text }
  ((split_into_sentences text).map classify_sentence).foldl addSentence init

/-- The dictionary returned by `StructuredRTIResponse.get_stats`.  The two
ratio fields keep their source names `informative_ratio` / `denial_ratio` in
the program; they are named `_fraction` here. -/
structure ResponseStats where
  total_sentences : ℕ
  informative_count : ℕ
  denial_count : ℕ
  procedural_count : ℕ
  evasive_count : ℕ
  neutral_count : ℕ
  informative_fraction : ℚ
  denial_fraction : ℚ
deriving DecidableEq, Repr

/-- `StructuredRTIResponse.get_stats`: counts per bucket, their total, and the
two ratios, which default to 0 when the total is 0. -/
def get_stats (r : StructuredRTIResponse) : ResponseStats :=
  let total := r.informative_sentences.length + r.denial_sentences.length
    + r.procedural_sentences.length + r.evasive_sentences.length
    + r.neutral_sentences.length
  { total_sentences := total,
    informative_count := r.informative_sentences.length,
    denial_count := r.denial_sentences.length,
    procedural_count := r.procedural_sentences.length,
    evasive_count := r.evasive_sentences.length,
    neutral_count := r.neutral_sentences.length,
    informative_fraction :=
      if 0 < total then (r.informative_sentences.length : ℚ) / (total : ℚ)
      else 0,
    denial_fraction :=
      if 0 < total then (r.denial_sentences.length : ℚ) / (total : ℚ) else 0 }

end rti_semantic

/- ### fact_extractor.py — fact anchor extraction -/

namespace fact_extractor

/-- `split_into_sentences` of `fact_extractor.py`: like the classifier's
segmenter, but the abbreviation patterns carry no trailing `\s` (replacement
`\1<DOT>`), `Rs\.` is additionally protected (`Rs<DOT>`), and pieces must be
longer than 15 characters. -/
def split_into_sentences (text : Str) : List Str :=
  let t1 := subAbbrev title_abbrevs false text
  let t2 := subAbbrev secno_abbrevs false t1
  let t3 := subAbbrev [chars "Rs"] false t2
  let pieces := (splitTermWs t3).map restoreDots
  (pieces.map pyStrip).filter (fun s => 15 < s.length)

/-- `FACT_KEYWORDS['actions']` of `fact_extractor.py`. -/
def FACT_ACTIONS : List Str :=
  [chars "provided", chars "processed", chars "credited", chars "transferred",
   chars "completed", chars "approved", chars "sanctioned", chars "issued",
   chars "granted", chars "received", chars "dispatched", chars "forwarded",
   chars "deposited", chars "verified", chars "confirmed"]

/-- `FACT_KEYWORDS['denials']` of `fact_extractor.py`. -/
def FACT_DENIALS : List Str :=
  [chars "denied", chars "rejected", chars "cannot be provided",
   chars "not available", chars "exemption", chars "section 8",
   chars "confidential", chars "not maintained"]

/-- `FACT_KEYWORDS['authorities']` of `fact_extractor.py`. -/
def FACT_AUTHORITIES : List Str :=
  [chars "ministry", chars "department", chars "office", chars "cpio",
   chars "pio", chars "authority", chars "commissioner", chars "secretary",
   chars "officer"]

/-- Length of the longest run of characters satisfying `p` at the front. -/
def countWhile (p : Char → Bool) (s : Str) : ℕ := (s.takeWhile p).length

/-- A character of the class `[\d,]`. -/
def isDigitComma (c : Char) : Bool := c.isDigit || c = ','

/-- A character of the class `[-\/]`. -/
def isSep (c : Char) : Bool := c = '-' || c = '/'

/-- Exactly `a` digits are available at the front of `s`. -/
def takeDigits (a : ℕ) (s : Str) : Bool :=
  (s.take a).length = a && (s.take a).all Char.isDigit

/-- Anchored match of `Rs\.?\s*[\d,]+` on the lowered text (the pattern is
searched with `re.IGNORECASE`), with the greedy optional-dot backtracking of
Python `re`; returns the match length. -/
def matchRs (s : Str) : Option ℕ :=
  if (chars "rs").isPrefixOf s then
    let r := s.drop 2
    let withDot : Option ℕ :=
      match r with
      | '.' :: r2 =>
        let j := countWhile isWs r2
        let d := countWhile isDigitComma (r2.drop j)
        if 0 < d then some (3 + j + d) else none
      | _ => none
    match withDot with
    | some n => some n
    | none =>
      let j := countWhile isWs r
      let d := countWhile isDigitComma (r.drop j)
      if 0 < d then some (2 + j + d) else none
  else none

/-- Anchored match of the second amount pattern.  The source file literally
contains the three characters `â‚¹` (a mis-encoded rupee sign) before
`\s*[\d,]+`; the matcher is faithful to those bytes. -/
def matchCurrencySign (s : Str) : Option ℕ :=
  if (chars "â‚¹").isPrefixOf s then
    let r := s.drop 3
    let j := countWhile isWs r
    let d := countWhile isDigitComma (r.drop j)
    if 0 < d then some (3 + j + d) else none
  else none

/-- Anchored match of `INR\s*[\d,]+` (lowered). -/
def matchINR (s : Str) : Option ℕ :=
  if (chars "inr").isPrefixOf s then
    let r := s.drop 3
    let j := countWhile isWs r
    let d := countWhile isDigitComma (r.drop j)
    if 0 < d then some (3 + j + d) else none
  else none

/-- Anchored match of `\d+\s*(?:lakh|crore|thousand)` (lowered). -/
def matchQuant (s : Str) : Option ℕ :=
  let d := countWhile Char.isDigit s
  if 0 < d then
    let j := countWhile isWs (s.drop d)
    let r := s.drop (d + j)
    if (chars "lakh").isPrefixOf r then some (d + j + 4)
    else if (chars "crore").isPrefixOf r then some (d + j + 5)
    else if (chars "thousand").isPrefixOf r then some (d + j + 8)
    else none
  else none

/-- Anchored match of `amount(?:ing)?\s+(?:of|to)` (lowered), trying the
greedy `ing` branch first as Python does. -/
def matchAmountOf (s : Str) : Option ℕ :=
  if (chars "amount").isPrefixOf s then
    let withIng : Option ℕ :=
      if (chars "ing").isPrefixOf (s.drop 6) then
        let j := countWhile isWs (s.drop 9)
        let r := s.drop (9 + j)
        if 0 < j ∧ ((chars "of").isPrefixOf r ∨ (chars "to").isPrefixOf r)
        then some (9 + j + 2) else none
      else none
    match withIng with
    | some n => some n
    | none =>
      let j := countWhile isWs (s.drop 6)
      let r := s.drop (6 + j)
      if 0 < j ∧ ((chars "of").isPrefixOf r ∨ (chars "to").isPrefixOf r)
      then some (6 + j + 2) else none
  else none

/-- Anchored match of `\d{2,4}`, greedy. -/
def yearDigits (s : Str) : Option ℕ :=
  if takeDigits 4 s then some 4
  else if takeDigits 3 s then some 3
  else if takeDigits 2 s then some 2
  else none

/-- Anchored match of `[-\/]\d{2,4}`. -/
def sepYear (s : Str) : Option ℕ :=
  match s with
  | c :: t => if isSep c then (yearDigits t).map (· + 1) else none
  | [] => none

/-- Anchored match of `\d{1,2}[-\/]\d{2,4}`, with `\d{1,2}` backtracking from
two digits to one. -/
def dayMonthTail (s : Str) : Option ℕ :=
  match (if takeDigits 2 s then (sepYear (s.drop 2)).map (· + 2) else none) with
  | some n => some n
  | none => if takeDigits 1 s then (sepYear (s.drop 1)).map (· + 1) else none

/-- Anchored match of the numeric date pattern `\d{1,2}[-\/]\d{1,2}[-\/]\d{2,4}`. -/
def matchNumDate (s : Str) : Option ℕ :=
  let afterFirst : Str → Option ℕ := fun r =>
    match r with
    | c :: t => if isSep c then (dayMonthTail t).map (· + 1) else none
    | [] => none
  match (if takeDigits 2 s then (afterFirst (s.drop 2)).map (· + 2) else none) with
  | some n => some n
  | none =>
    if takeDigits 1 s then (afterFirst (s.drop 1)).map (· + 1) else none

/-- Anchored match of `(?:dated?|on)\s+` followed by the numeric date, with
the Python backtracking order `dated`, `date`, `on`. -/
def matchDated (s : Str) : Option ℕ :=
  let tryWord : Str → Option ℕ := fun w =>
    if w.isPrefixOf s then
      let j := countWhile isWs (s.drop w.length)
      if 0 < j then (matchNumDate (s.drop (w.length + j))).map (· + w.length + j)
      else none
    else none
  match tryWord (chars "dated") with
  | some n => some n
  | none =>
    match tryWord (chars "date") with
    | some n => some n
    | none => tryWord (chars "on")

/-- The month alternation of the full-date pattern, in pattern order
(lowered). -/
def monthAt (s : Str) : Option ℕ :=
  let ms : List Str :=
    [chars "january", chars "february", chars "march", chars "april",
     chars "may", chars "june", chars "july", chars "august",
     chars "september", chars "october", chars "november", chars "december"]
  (ms.find? (fun m => m.isPrefixOf s)).map (fun m => m.length)

/-- Anchored match of `\s+(?:month),?\s+\d{4}`: the part of the full-date
pattern after the day (and optional ordinal suffix). -/
def afterDay (s : Str) : Option ℕ :=
  let j := countWhile isWs s
  if j = 0 then none
  else
    match monthAt (s.drop j) with
    | none => none
    | some m =>
      match s.drop (j + m) with
      | ',' :: r2 =>
        let j2 := countWhile isWs r2
        if 0 < j2 ∧ takeDigits 4 (r2.drop j2) then some (j + m + 1 + j2 + 4)
        else none
      | r =>
        let j2 := countWhile isWs r
        if 0 < j2 ∧ takeDigits 4 (r.drop j2) then some (j + m + j2 + 4)
        else none

/-- Anchored match of the full-date pattern
`\d{1,2}(?:st|nd|rd|th)?\s+(?:January|...|December),?\s+\d{4}` (lowered), the
ordinal suffix tried greedily first. -/
def matchMonthDate (s : Str) : Option ℕ :=
  let dayA : ℕ → Option ℕ := fun a =>
    if takeDigits a s then
      let r := s.drop a
      let ords : List Str := [chars "st", chars "nd", chars "rd", chars "th"]
      let withOrd : Option ℕ :=
        match ords.find? (fun o => o.isPrefixOf r) with
        | some _ => (afterDay (r.drop 2)).map (· + a + 2)
        | none => none
      match withOrd with
      | some n => some n
      | none => (afterDay r).map (· + a)
    else none
  match dayA 2 with
  | some n => some n
  | none => dayA 1

/-- `len(re.findall(pattern, text))` for a non-empty-match pattern given by
its anchored matcher `m`: scan left to right, counting non-overlapping
matches and resuming after each one.  None of the matchers above can return
0, so the `max k 1` step (needed for termination) equals the match length. -/
def countMatches (m : Str → Option ℕ) : Str → ℕ
  | [] => 0
  | c :: t =>
    match m (c :: t) with
    | some k => 1 + countMatches m ((c :: t).drop (max k 1))
    | none => countMatches m t
termination_by s => s.length
decreasing_by
  all_goals simp only [List.length_drop, List.length_cons]
  all_goals omega

/-- `calculate_sentence_score` of `fact_extractor.py` (the returned
match-detail dictionary is elided: only the numeric score is ever consumed).
Weights: +2.0 per distinct action keyword, +2.5 per distinct denial keyword,
+3.0 per amount-pattern match, +2.5 per date-pattern match, +1.0 per distinct
authority keyword; +1.0 for 15–50 words, +0.5 for more than 50 words; the
total is halved for fewer than 5 words. -/
def calculate_sentence_score (sentence : Str) : ℚ :=
  let sl := lowerStr sentence
  let actions := (FACT_ACTIONS.filter (fun k => containsSub sl k)).length
  let denials := (FACT_DENIALS.filter (fun k => containsSub sl k)).length
  let amounts := countMatches matchRs sl + countMatches matchCurrencySign sl
    + countMatches matchINR sl + countMatches matchQuant sl
    + countMatches matchAmountOf sl
  let dates := countMatches matchMonthDate sl + countMatches matchNumDate sl
    + countMatches matchDated sl
  let auths := (FACT_AUTHORITIES.filter (fun k => containsSub sl k)).length
  let score : ℚ := 2 * actions + (5/2 : ℚ) * denials + 3 * amounts
    + (5/2 : ℚ) * dates + auths
  let wc := wordCount sentence
  let score2 :=
    if 15 ≤ wc ∧ wc ≤ 50 then score + 1
    else if 50 < wc then score + 1/2
    else score
  if wc < 5 then score2 * (1/2 : ℚ) else score2

/-- The scored sentence list built by `extract_fact_anchors` before
sorting. -/
def scored_sentences (text : Str) : List (Str × ℚ) :=
  (split_into_sentences text).map (fun s => (s, calculate_sentence_score s))

/-- The comparison used by `scored_sentences.sort(key=score, reverse=True)`:
`x` may precede `y` when its score is at least `y`'s.  Inserting with this
non-strict relation reproduces Python's stable descending sort. -/
def score_ge (x y : Str × ℚ) : Prop := y.2 ≤ x.2

instance : DecidableRel score_ge :=
  fun x y => inferInstanceAs (Decidable (y.2 ≤ x.2))

instance : IsTotal (Str × ℚ) score_ge := ⟨fun a b => le_total b.2 a.2⟩

instance : IsTrans (Str × ℚ) score_ge :=
  ⟨fun _ _ _ hab hbc => le_trans hbc hab⟩

/-- `extract_fact_anchors` of `fact_extractor.py`: sort by score descending
(stably), keep the sentences among the first `top_n` whose score reaches the
threshold 1.0, and if none does, fall back to the top two sentences
regardless of score. -/
def extract_fact_anchors (text : Str) (top_n : ℕ) : List Str :=
  let sentences := split_into_sentences text
  if sentences.isEmpty then []
  else
    let sorted := List.insertionSort score_ge (scored_sentences text)
    let fact_anchors :=
      ((sorted.take top_n).filter (fun x => 1 ≤ x.2)).map Prod.fst
    if fact_anchors.isEmpty then (sorted.take 2).map Prod.fst
    else fact_anchors

end fact_extractor

/- ### actionability.py — the action rule engine -/

namespace actionability

open rti_semantic

/-- `ActionType` enum of `actionability.py`. -/
inductive ActionType where
  | first_appeal
  | second_appeal
  | clarification
  | complaint
  | no_action
  | wait
  | pay_fee
deriving DecidableEq, Repr

/-- `ActionSuggestion` dataclass of `actionability.py`. -/
structure ActionSuggestion where
  action_type : ActionType
  priority : String
  title : String
  description : String
  deadline : Option String := none
  reference : Option String := none
deriving DecidableEq, Repr

/-- Rule 1's suggestion (high denial ratio or count). -/
def first_appeal_suggestion : ActionSuggestion :=
  { action_type := ActionType.first_appeal, priority := "high",
    title := "File First Appeal",
    description := "Significant information has been denied. You can file a First Appeal with the First Appellate Authority within 30 days of receiving this response. Under Section 19(1) of RTI Act, you have the right to appeal against denial.",
    deadline := some "30 days from receipt of response",
    reference := some "Section 19(1) of RTI Act, 2005" }

/-- Rule 2's suggestion (evasive responses). -/
def clarification_suggestion : ActionSuggestion :=
  { action_type := ActionType.clarification, priority := "high",
    title := "Request Clarification",
    description := "The response contains vague or evasive statements that don\x27t adequately answer your query. You can write to the PIO requesting specific clarification or file an appeal citing inadequate response.",
    reference := some "Section 7(8) of RTI Act, 2005" }

/-- Rule 3's suggestion (Section 8 exemption cited). -/
def challenge_exemption_suggestion : ActionSuggestion :=
  { action_type := ActionType.first_appeal, priority := "high",
    title := "Challenge Exemption Claim",
    description := "The PIO has cited Section 8 exemptions to deny information. You can file an appeal challenging whether the exemption genuinely applies. The burden is on the PIO to prove that the exemption is justified.",
    deadline := some "30 days from receipt",
    reference := some "Section 8, Section 19 of RTI Act, 2005" }

/-- Rule 4's fee suggestion. -/
def pay_fee_suggestion : ActionSuggestion :=
  { action_type := ActionType.pay_fee, priority := "medium",
    title := "Pay Additional Fee",
    description := "The PIO has requested additional fees. Pay the fee within the specified timeline to receive the information. Keep the receipt as proof.",
    reference := some "Section 7 of RTI Act, 2005" }

/-- Rule 4's transfer suggestion. -/
def transferred_suggestion : ActionSuggestion :=
  { action_type := ActionType.wait, priority := "low",
    title := "Application Transferred",
    description := "Your application has been transferred to another department. Wait for a response from the concerned PIO. The transfer should not reset your timeline.",
    reference := some "Section 6(3) of RTI Act, 2005" }

/-- Rule 5's suggestion (good response). -/
def response_complete_suggestion : ActionSuggestion :=
  { action_type := ActionType.no_action, priority := "low",
    title := "Response Complete",
    description := "The RTI response appears to adequately address your query. No further action is required unless you find the information incomplete." }

/-- Rule 6's catch-all suggestion, emitted only when no other rule fired. -/
def review_suggestion : ActionSuggestion :=
  { action_type := ActionType.no_action, priority := "low",
    title := "Review Response Carefully",
    description := "Review the response to determine if all your queries have been addressed. If unsatisfied, you may file a First Appeal within 30 days.",
    deadline := some "30 days if appeal needed",
    reference := some "Section 19 of RTI Act, 2005" }

/-- `' '.join([s.text.lower() for s in structured.procedural_sentences])` of
rule 4. -/
def procedural_texts (r : StructuredRTIResponse) : Str :=
  List.intercalate [' '] (r.procedural_sentences.map (fun s => lowerStr s.text))

/-- Rules 1–5 of `suggest_next_steps`, in firing order (rule 4 contributes
its fee suggestion before its transfer suggestion). -/
def rule_suggestions (r : StructuredRTIResponse) : List ActionSuggestion :=
  let stats := get_stats r
  (if 3/10 < stats.denial_fraction ∨ 2 ≤ stats.denial_count
   then [first_appeal_suggestion] else []) ++
  ((if 2 ≤ stats.evasive_count
      ∨ (0 < stats.evasive_count ∧ stats.informative_count = 0)
    then [clarification_suggestion] else []) ++
  ((if "section_8" ∈ r.section_references
    then [challenge_exemption_suggestion] else []) ++
  ((if 0 < stats.procedural_count then
      (if containsSub (procedural_texts r) (chars "fee")
          ∨ containsSub (procedural_texts r) (chars "deposit")
          ∨ containsSub (procedural_texts r) (chars "payment")
       then [pay_fee_suggestion] else []) ++
      (if containsSub (procedural_texts r) (chars "transfer")
          ∨ containsSub (procedural_texts r) (chars "forward")
       then [transferred_suggestion] else [])
    else []) ++
  (if 6/10 < stats.informative_fraction ∧ stats.denial_count = 0
   then [response_complete_suggestion] else []))))

/-- The sort key `priority_order.get(x.priority, 3)` with
`{'high': 0, 'medium': 1, 'low': 2}`. -/
def priority_order (p : String) : ℕ :=
  if p = "high" then 0 else if p = "medium" then 1 else if p = "low" then 2
  else 3

/-- The comparison realized by the stable
`suggestions.sort(key=priority_order)`. -/
def suggestion_le (x y : ActionSuggestion) : Prop :=
  priority_order x.priority ≤ priority_order y.priority

instance : DecidableRel suggestion_le :=
  fun x y =>
    inferInstanceAs (Decidable (priority_order x.priority ≤ priority_order y.priority))

instance : IsTotal ActionSuggestion suggestion_le :=
  ⟨fun a b => Nat.le_total (priority_order a.priority) (priority_order b.priority)⟩

instance : IsTrans ActionSuggestion suggestion_le :=
  ⟨fun _ _ _ hab hbc => Nat.le_trans hab hbc⟩

/-- `suggest_next_steps` of `actionability.py`: evaluate rules 1–5, emit the
catch-all when nothing fired, then sort stably by priority. -/
def suggest_next_steps (r : StructuredRTIResponse) : List ActionSuggestion :=
  let base := rule_suggestions r
  let withDefault := if base.isEmpty then [review_suggestion] else base
  List.insertionSort suggestion_le withDefault

/-- The dictionary returned by `check_appeal_eligibility`. -/
structure AppealEligibility where
  eligible : Bool
  reasons : List String
  appeal_type : String
  deadline : String
  authority : String
deriving DecidableEq, Repr

/-- `check_appeal_eligibility` of `actionability.py`: collect one reason per
satisfied condition, in source order; `eligible` is `len(reasons) > 0`. -/
def check_appeal_eligibility (r : StructuredRTIResponse) : AppealEligibility :=
  let stats := get_stats r
  let reasons : List String :=
    (if 0 < stats.denial_count then ["Information was denied"] else []) ++
    ((if "section_8" ∈ r.section_references
      then ["Section 8 exemptions were cited"] else []) ++
    ((if 0 < stats.evasive_count
      then ["Response contains evasive/unclear statements"] else []) ++
    (if stats.informative_count = 0 ∧ 3 < stats.neutral_count
     then ["Response does not adequately address the query"] else [])))
  { eligible := decide (0 < reasons.length),
    reasons := reasons,
    appeal_type := "First Appeal under Section 19(1)",
    deadline := "30 days from receipt of response",
    authority := "First Appellate Authority (FAA)" }

/-- `_get_overall_assessment` of `actionability.py` (the leading underscore
is dropped from the Lean name). -/
def get_overall_assessment (r : StructuredRTIResponse) : String :=
  let stats := get_stats r
  if 6/10 < stats.informative_fraction then
    "SATISFACTORY - Response adequately addresses most queries"
  else if 4/10 < stats.denial_fraction then
    "UNSATISFACTORY - Significant information denied, consider appeal"
  else if stats.informative_count < stats.evasive_count then
    "INADEQUATE - Response is vague and non-committal"
  else
    "PARTIAL - Some information provided, review for completeness"

end actionability

/- ### Claims -/

/-- C10: with an empty keyword list, `keyword_score` returns score 0 and an
empty matched-keyword list for every text — the division by the list length
is guarded, so classification stays total under substituted empty keyword
configurations. -/
theorem claim10_empty_keywords (text : Str) :
    rti_semantic.keyword_score text [] = (0, []) := rfl

/-- C8: the sentence "Information cannot be provided as it is exempt under
Section 8 of the Act." is classified as Denial, its section references
include the exemption section `section_8`, and its confidence (the adjusted
Denial score) is exactly the Denial keyword score plus the fixed +0.3
exemption bonus. -/
theorem claim8_scenario_denial :
    (rti_semantic.classify_sentence (chars "Information cannot be provided as it is exempt under Section 8 of the Act.")).category
        = rti_semantic.SentenceCategory.denial ∧
    "section_8" ∈ (rti_semantic.classify_sentence (chars "Information cannot be provided as it is exempt under Section 8 of the Act.")).section_references ∧
    (rti_semantic.classify_sentence (chars "Information cannot be provided as it is exempt under Section 8 of the Act.")).confidence
        = (rti_semantic.keyword_score (chars "Information cannot be provided as it is exempt under Section 8 of the Act.") config.DENIAL_KEYWORDS).1 + 3/10 := by
  with_unfolding_all decide

/-- C5, counterexample: the claim says both segmenters protect the
abbreviation "Rs.", but the classification segmenter
(`rti_semantic.split_into_sentences`) does not: its protected patterns are
only the title abbreviations and `([Ss]ec|[Nn]o)\.`, so the period of "Rs."
is treated as a sentence terminator and "The fee of Rs. 500 was paid to the
office." is split into two pieces instead of staying one sentence. -/
theorem claim5_counterexample :
    rti_semantic.split_into_sentences (chars "The fee of Rs. 500 was paid to the office.")
      = [chars "The fee of Rs.", chars "500 was paid to the office."] ∧
    rti_semantic.split_into_sentences (chars "The fee of Rs. 500 was paid to the office.")
      ≠ [chars "The fee of Rs. 500 was paid to the office."] := by
  with_unfolding_all decide

/-- C5, amended: the fact-anchor segmenter protects "Sec.", "No." and "Rs."
(each example stays one sentence), and the classification segmenter protects
"Sec." and "No." — but not "Rs.", whose trailing period it treats as a
sentence terminator (the same "Rs." example splits in two there). -/
theorem claim5_amended_abbreviations :
    fact_extractor.split_into_sentences (chars "The fee of Rs. 500 was paid to the office.")
      = [chars "The fee of Rs. 500 was paid to the office."] ∧
    fact_extractor.split_into_sentences (chars "As per Sec. 8 the information was denied today.")
      = [chars "As per Sec. 8 the information was denied today."] ∧
    fact_extractor.split_into_sentences (chars "Letter No. 45 was dispatched to you earlier.")
      = [chars "Letter No. 45 was dispatched to you earlier."] ∧
    rti_semantic.split_into_sentences (chars "As per Sec. 8 the information was denied today.")
      = [chars "As per Sec. 8 the information was denied today."] ∧
    rti_semantic.split_into_sentences (chars "Letter No. 45 was dispatched to you earlier.")
      = [chars "Letter No. 45 was dispatched to you earlier."] ∧
    rti_semantic.split_into_sentences (chars "The fee of Rs. 500 was paid to the office.")
      = [chars "The fee of Rs.", chars "500 was paid to the office."] := by
  with_unfolding_all decide

/-- Helper for C4/C9: on the four-entry score table, the selection loop picks
the earliest entry attaining the maximal score, provided that maximum is
positive (otherwise the NEUTRAL seed of the loop survives). -/
theorem pickBest_table (d i p e : ℚ) (kd ki kp ke : List Str)
    (h0 : 0 < max (max d i) (max p e)) :
    rti_semantic.pickBest
        [(rti_semantic.SentenceCategory.denial, d, kd),
         (rti_semantic.SentenceCategory.informative, i, ki),
         (rti_semantic.SentenceCategory.procedural, p, kp),
         (rti_semantic.SentenceCategory.evasive, e, ke)] =
      (if max (max d i) (max p e) ≤ d then
         (rti_semantic.SentenceCategory.denial, d, kd)
       else if max (max d i) (max p e) ≤ i then
         (rti_semantic.SentenceCategory.informative, i, ki)
       else if max (max d i) (max p e) ≤ p then
         (rti_semantic.SentenceCategory.procedural, p, kp)
       else (rti_semantic.SentenceCategory.evasive, e, ke)) := by
  have hd : d ≤ max (max d i) (max p e) := le_max_of_le_left (le_max_left _ _)
  have hi : i ≤ max (max d i) (max p e) := le_max_of_le_left (le_max_right _ _)
  have hp : p ≤ max (max d i) (max p e) := le_max_of_le_right (le_max_left _ _)
  have he : e ≤ max (max d i) (max p e) := le_max_of_le_right (le_max_right _ _)
  have hone : max (max d i) (max p e) = d ∨ max (max d i) (max p e) = i
      ∨ max (max d i) (max p e) = p ∨ max (max d i) (max p e) = e := by
    rcases max_choice (max d i) (max p e) with h | h <;> rw [h]
    · rcases max_choice d i with h2 | h2 <;> rw [h2] <;> tauto
    · rcases max_choice p e with h2 | h2 <;> rw [h2] <;> tauto
  simp only [rti_semantic.pickBest, List.foldl]
  generalize hMg : max (max d i) (max p e) = M at hd hi hp he hone h0 ⊢
  clear hMg
  rcases hone with h | h | h | h <;> subst h <;> split_ifs <;>
    (try dsimp only at *) <;> first | rfl | (exfalso; linarith)

/-- Helper for C4/C9: all four adjusted scores of the empty sentence vanish,
so a maximal score that is positive forces the stripped sentence to be
non-empty. -/
theorem maxAdjScore_nil : rti_semantic.maxAdjScore [] = 0 := by
  with_unfolding_all decide

/-- Helper for C4/C9: the four-way maximum is attained by one of its
arguments. -/
theorem max4_le_one (d i p e : ℚ) :
    max (max d i) (max p e) ≤ d ∨ max (max d i) (max p e) ≤ i ∨
    max (max d i) (max p e) ≤ p ∨ max (max d i) (max p e) ≤ e := by
  rcases max_choice (max d i) (max p e) with h | h
  · rcases max_choice d i with h2 | h2
    · exact Or.inl (by rw [h, h2])
    · exact Or.inr (Or.inl (by rw [h, h2]))
  · rcases max_choice p e with h2 | h2
    · exact Or.inr (Or.inr (Or.inl (by rw [h, h2])))
    · exact Or.inr (Or.inr (Or.inr (by rw [h, h2])))

/-- C4, counterexample: on the sentence "hello there everyone" all four
adjusted category scores are 0, so all four non-neutral categories tie at the
maximal adjusted score, yet `classify_sentence` returns Neutral (the 0.1
neutral floor overrides the selection), not the earliest category Denial as
the claim demands. -/
theorem claim4_counterexample :
    rti_semantic.denial_score (chars "hello there everyone") = 0 ∧
    rti_semantic.informative_score (chars "hello there everyone") = 0 ∧
    rti_semantic.procedural_score (chars "hello there everyone") = 0 ∧
    rti_semantic.evasive_score (chars "hello there everyone") = 0 ∧
    (rti_semantic.classify_sentence (chars "hello there everyone")).category
      = rti_semantic.SentenceCategory.neutral ∧
    (rti_semantic.classify_sentence (chars "hello there everyone")).category
      ≠ rti_semantic.SentenceCategory.denial := by
  with_unfolding_all decide

/-- C4, amended: provided the maximal adjusted score of the stripped sentence
reaches the 0.1 neutral floor, `classify_sentence` selects the earliest
category attaining the maximum in the fixed order Denial, Informative,
Procedural, Evasive (so ties go to the earlier-declared category, and a
unique maximum wins outright); below the floor the result is Neutral
instead. -/
theorem claim4_tiebreak (s : Str)
    (h : 1/10 ≤ rti_semantic.maxAdjScore (pyStrip s)) :
    (rti_semantic.classify_sentence s).category =
      (if rti_semantic.maxAdjScore (pyStrip s) ≤ rti_semantic.denial_score (pyStrip s) then
         rti_semantic.SentenceCategory.denial
       else if rti_semantic.maxAdjScore (pyStrip s) ≤ rti_semantic.informative_score (pyStrip s) then
         rti_semantic.SentenceCategory.informative
       else if rti_semantic.maxAdjScore (pyStrip s) ≤ rti_semantic.procedural_score (pyStrip s) then
         rti_semantic.SentenceCategory.procedural
       else rti_semantic.SentenceCategory.evasive) := by
  have hne : (pyStrip s).isEmpty = false := by
    cases htE : (pyStrip s).isEmpty
    · rfl
    · exfalso
      have ht : pyStrip s = [] := by simpa using htE
      rw [ht, maxAdjScore_nil] at h
      norm_num at h
  have h0 : 0 < rti_semantic.maxAdjScore (pyStrip s) :=
    lt_of_lt_of_le (by norm_num) h
  simp only [rti_semantic.maxAdjScore] at h h0 ⊢
  simp only [rti_semantic.classify_sentence, rti_semantic.score_table, hne,
    Bool.false_eq_true, if_false]
  rw [pickBest_table _ _ _ _ _ _ _ _ h0]
  rcases max4_le_one (rti_semantic.denial_score (pyStrip s))
      (rti_semantic.informative_score (pyStrip s))
      (rti_semantic.procedural_score (pyStrip s))
      (rti_semantic.evasive_score (pyStrip s)) with hx | hx | hx | hx <;>
    split_ifs <;> (try dsimp only at *) <;> first | rfl | (exfalso; linarith)

/-- C4, witness: the sentence "The reply is vague and enclosed." scores
1/8 for both Informative and Evasive (0 for the others), an exact tie at the
maximum above the floor, and the theorem instantiates to it. -/
theorem claim4_witness :
    1/10 ≤ rti_semantic.maxAdjScore (pyStrip (chars "The reply is vague and enclosed.")) ∧
    (rti_semantic.classify_sentence (chars "The reply is vague and enclosed.")).category =
      (if rti_semantic.maxAdjScore (pyStrip (chars "The reply is vague and enclosed."))
          ≤ rti_semantic.denial_score (pyStrip (chars "The reply is vague and enclosed.")) then
         rti_semantic.SentenceCategory.denial
       else if rti_semantic.maxAdjScore (pyStrip (chars "The reply is vague and enclosed."))
          ≤ rti_semantic.informative_score (pyStrip (chars "The reply is vague and enclosed.")) then
         rti_semantic.SentenceCategory.informative
       else if rti_semantic.maxAdjScore (pyStrip (chars "The reply is vague and enclosed."))
          ≤ rti_semantic.procedural_score (pyStrip (chars "The reply is vague and enclosed.")) then
         rti_semantic.SentenceCategory.procedural
       else rti_semantic.SentenceCategory.evasive) :=
  ⟨by with_unfolding_all decide,
   claim4_tiebreak (chars "The reply is vague and enclosed.")
     (by with_unfolding_all decide)⟩

/-- C9: when the best adjusted score of the stripped sentence is positive but
below the 0.1 floor, `classify_sentence` returns Neutral with confidence
exactly 0.5, yet `keywords_found` is still the matched-keyword list of the
discarded below-floor best category (earliest attaining the maximum) and
`section_references` still lists the sections detected in the sentence. -/
theorem claim9_neutral_floor_keywords (s : Str)
    (h0 : 0 < rti_semantic.maxAdjScore (pyStrip s))
    (h1 : rti_semantic.maxAdjScore (pyStrip s) < 1/10) :
    (rti_semantic.classify_sentence s).category
        = rti_semantic.SentenceCategory.neutral ∧
    (rti_semantic.classify_sentence s).confidence = 1/2 ∧
    (rti_semantic.classify_sentence s).keywords_found =
      (if rti_semantic.maxAdjScore (pyStrip s) ≤ rti_semantic.denial_score (pyStrip s) then
         (rti_semantic.keyword_score (pyStrip s) config.DENIAL_KEYWORDS).2
       else if rti_semantic.maxAdjScore (pyStrip s) ≤ rti_semantic.informative_score (pyStrip s) then
         (rti_semantic.keyword_score (pyStrip s) config.INFORMATIVE_KEYWORDS).2
       else if rti_semantic.maxAdjScore (pyStrip s) ≤ rti_semantic.procedural_score (pyStrip s) then
         (rti_semantic.keyword_score (pyStrip s) config.PROCEDURAL_KEYWORDS).2
       else (rti_semantic.keyword_score (pyStrip s) config.EVASIVE_KEYWORDS).2) ∧
    (rti_semantic.classify_sentence s).section_references
        = rti_semantic.detect_rti_section_names (pyStrip s) := by
  have hne : (pyStrip s).isEmpty = false := by
    cases htE : (pyStrip s).isEmpty
    · rfl
    · exfalso
      have ht : pyStrip s = [] := by simpa using htE
      rw [ht, maxAdjScore_nil] at h0
      norm_num at h0
  simp only [rti_semantic.maxAdjScore] at h0 h1 ⊢
  simp only [rti_semantic.classify_sentence, rti_semantic.score_table, hne,
    Bool.false_eq_true, if_false]
  rw [pickBest_table _ _ _ _ _ _ _ _ h0]
  have hd : rti_semantic.denial_score (pyStrip s)
      ≤ max (max (rti_semantic.denial_score (pyStrip s)) (rti_semantic.informative_score (pyStrip s)))
          (max (rti_semantic.procedural_score (pyStrip s)) (rti_semantic.evasive_score (pyStrip s))) :=
    le_max_of_le_left (le_max_left _ _)
  have hi : rti_semantic.informative_score (pyStrip s)
      ≤ max (max (rti_semantic.denial_score (pyStrip s)) (rti_semantic.informative_score (pyStrip s)))
          (max (rti_semantic.procedural_score (pyStrip s)) (rti_semantic.evasive_score (pyStrip s))) :=
    le_max_of_le_left (le_max_right _ _)
  have hp : rti_semantic.procedural_score (pyStrip s)
      ≤ max (max (rti_semantic.denial_score (pyStrip s)) (rti_semantic.informative_score (pyStrip s)))
          (max (rti_semantic.procedural_score (pyStrip s)) (rti_semantic.evasive_score (pyStrip s))) :=
    le_max_of_le_right (le_max_left _ _)
  have he : rti_semantic.evasive_score (pyStrip s)
      ≤ max (max (rti_semantic.denial_score (pyStrip s)) (rti_semantic.informative_score (pyStrip s)))
          (max (rti_semantic.procedural_score (pyStrip s)) (rti_semantic.evasive_score (pyStrip s))) :=
    le_max_of_le_right (le_max_right _ _)
  split_ifs <;> (try dsimp only at *) <;>
    first
    | exact ⟨rfl, rfl, rfl, rfl⟩
    | (exfalso; linarith)

/-- C9, witness: "The matter is classified for now." has best adjusted score
1/14 (one Denial keyword), positive yet below 0.1, and is classified Neutral
with confidence 0.5 while still carrying the matched keyword "classified". -/
theorem claim9_witness :
    0 < rti_semantic.maxAdjScore (pyStrip (chars "The matter is classified for now.")) ∧
    rti_semantic.maxAdjScore (pyStrip (chars "The matter is classified for now.")) < 1/10 ∧
    ((rti_semantic.classify_sentence (chars "The matter is classified for now.")).category
        = rti_semantic.SentenceCategory.neutral ∧
     (rti_semantic.classify_sentence (chars "The matter is classified for now.")).confidence = 1/2 ∧
     (rti_semantic.classify_sentence (chars "The matter is classified for now.")).keywords_found =
       (if rti_semantic.maxAdjScore (pyStrip (chars "The matter is classified for now."))
           ≤ rti_semantic.denial_score (pyStrip (chars "The matter is classified for now.")) then
          (rti_semantic.keyword_score (pyStrip (chars "The matter is classified for now.")) config.DENIAL_KEYWORDS).2
        else if rti_semantic.maxAdjScore (pyStrip (chars "The matter is classified for now."))
           ≤ rti_semantic.informative_score (pyStrip (chars "The matter is classified for now.")) then
          (rti_semantic.keyword_score (pyStrip (chars "The matter is classified for now.")) config.INFORMATIVE_KEYWORDS).2
        else if rti_semantic.maxAdjScore (pyStrip (chars "The matter is classified for now."))
           ≤ rti_semantic.procedural_score (pyStrip (chars "The matter is classified for now.")) then
          (rti_semantic.keyword_score (pyStrip (chars "The matter is classified for now.")) config.PROCEDURAL_KEYWORDS).2
        else (rti_semantic.keyword_score (pyStrip (chars "The matter is classified for now.")) config.EVASIVE_KEYWORDS).2) ∧
     (rti_semantic.classify_sentence (chars "The matter is classified for now.")).section_references
        = rti_semantic.detect_rti_section_names (pyStrip (chars "The matter is classified for now."))) :=
  ⟨by with_unfolding_all decide, by with_unfolding_all decide,
   claim9_neutral_floor_keywords (chars "The matter is classified for now.")
     (by with_unfolding_all decide) (by with_unfolding_all decide)⟩

/-- A concrete structured response whose classification statistics are 10
sentences, 4 Denial, 0 Informative (6 Neutral): the shape of the claim's
scenario document. -/
def c1_doc : rti_semantic.StructuredRTIResponse :=
  { original_text := []
    denial_sentences := List.replicate 4
      ⟨chars "d", rti_semantic.SentenceCategory.denial, 1, [], []⟩
    neutral_sentences := List.replicate 6
      ⟨chars "n", rti_semantic.SentenceCategory.neutral, 1, [], []⟩ }

/-- C1, counterexample: a document with 10 sentences, 4 Denial and 0
Informative has `denial_ratio` exactly 0.4, which does NOT exceed the strict
threshold `> 0.4`, so the overall assessment is not the "UNSATISFACTORY"
label (here it is the "PARTIAL" label). -/
theorem claim1_counterexample :
    (rti_semantic.get_stats c1_doc).total_sentences = 10 ∧
    (rti_semantic.get_stats c1_doc).denial_count = 4 ∧
    (rti_semantic.get_stats c1_doc).informative_count = 0 ∧
    (rti_semantic.get_stats c1_doc).denial_fraction = 2/5 ∧
    actionability.get_overall_assessment c1_doc
      ≠ "UNSATISFACTORY - Significant information denied, consider appeal" := by
  with_unfolding_all decide

/-- C1, amended: for every structured response with 10 sentences of which 4
are Denial and 0 Informative, `denial_ratio` is exactly 2/5 and the overall
assessment is the "INADEQUATE" label when any sentence is Evasive and the
"PARTIAL" label otherwise — never "UNSATISFACTORY", since the code's
threshold is strict — while the rule engine does emit the high-priority File
First Appeal suggestion (its rule already fires at `denial_ratio > 0.3`, and
also at `denial_count ≥ 2`). -/
theorem claim1_assessment (r : rti_semantic.StructuredRTIResponse)
    (h10 : (rti_semantic.get_stats r).total_sentences = 10)
    (hd4 : (rti_semantic.get_stats r).denial_count = 4)
    (hi0 : (rti_semantic.get_stats r).informative_count = 0) :
    (rti_semantic.get_stats r).denial_fraction = 2/5 ∧
    actionability.get_overall_assessment r =
      (if 0 < (rti_semantic.get_stats r).evasive_count then
         "INADEQUATE - Response is vague and non-committal"
       else "PARTIAL - Some information provided, review for completeness") ∧
    actionability.first_appeal_suggestion ∈ actionability.suggest_next_steps r ∧
    actionability.first_appeal_suggestion.priority = "high" := by
  have hT : r.informative_sentences.length + r.denial_sentences.length
      + r.procedural_sentences.length + r.evasive_sentences.length
      + r.neutral_sentences.length = 10 := by
    simpa [rti_semantic.get_stats] using h10
  have hDen : r.denial_sentences.length = 4 := by
    simpa [rti_semantic.get_stats] using hd4
  have hInf : r.informative_sentences.length = 0 := by
    simpa [rti_semantic.get_stats] using hi0
  have hDF : (rti_semantic.get_stats r).denial_fraction = 2/5 := by
    simp only [rti_semantic.get_stats]
    rw [hT, hDen]
    norm_num
  have hIF : (rti_semantic.get_stats r).informative_fraction = 0 := by
    simp only [rti_semantic.get_stats]
    rw [hT, hInf]
    norm_num
  refine ⟨hDF, ?_, ?_, rfl⟩
  · simp only [actionability.get_overall_assessment, hDF, hIF, hi0]
    norm_num
  · have hfa : actionability.first_appeal_suggestion
        ∈ actionability.rule_suggestions r := by
      simp only [actionability.rule_suggestions]
      rw [if_pos (Or.inr (by rw [hd4]; norm_num :
        2 ≤ (rti_semantic.get_stats r).denial_count))]
      exact List.mem_append_left _ (List.mem_singleton_self _)
    have hne : (actionability.rule_suggestions r).isEmpty = false := by
      rcases h : (actionability.rule_suggestions r).isEmpty with _ | _
      · rfl
      · exact absurd (List.isEmpty_iff.mp h)
          (List.ne_nil_of_mem hfa)
    simp only [actionability.suggest_next_steps, hne, Bool.false_eq_true,
      if_false, List.mem_insertionSort]
    exact hfa

/-- C1, witness: the amended statement instantiated at the concrete
4-Denial/6-Neutral document. -/
theorem claim1_witness :
    (rti_semantic.get_stats c1_doc).total_sentences = 10 ∧
    (rti_semantic.get_stats c1_doc).denial_count = 4 ∧
    (rti_semantic.get_stats c1_doc).informative_count = 0 ∧
    ((rti_semantic.get_stats c1_doc).denial_fraction = 2/5 ∧
     actionability.get_overall_assessment c1_doc =
       (if 0 < (rti_semantic.get_stats c1_doc).evasive_count then
          "INADEQUATE - Response is vague and non-committal"
        else "PARTIAL - Some information provided, review for completeness") ∧
     actionability.first_appeal_suggestion ∈ actionability.suggest_next_steps c1_doc ∧
     actionability.first_appeal_suggestion.priority = "high") :=
  ⟨by with_unfolding_all decide, by with_unfolding_all decide,
   by with_unfolding_all decide,
   claim1_assessment c1_doc (by with_unfolding_all decide)
     (by with_unfolding_all decide) (by with_unfolding_all decide)⟩

/-- Helper for C6: filtering an ordered insertion, when all elements
satisfying `p` are related by `r` to the inserted element, keeps the inserted
element in front of the filtered tail — the heart of stability. -/
theorem filter_orderedInsert {α : Type} (r : α → α → Prop) [DecidableRel r]
    (p : α → Bool) (a : α) (hpr : ∀ b, p a = true → p b = true → r a b) :
    ∀ l : List α, (List.orderedInsert r a l).filter p =
      if p a then a :: l.filter p else l.filter p := by
  intro l
  induction l with
  | nil => cases hpa : p a <;> simp [List.orderedInsert, List.filter, hpa]
  | cons b t ih =>
    by_cases hr : r a b
    · rw [List.orderedInsert, if_pos hr]
      cases hpa : p a <;> simp [List.filter_cons, hpa]
    · rw [List.orderedInsert, if_neg hr]
      cases hpb : p b
      · cases hpa : p a <;>
          simp [List.filter_cons, hpa, hpb, ih]
      · have hpa : p a = false := by
          cases hpa : p a
          · rfl
          · exact absurd (hpr b hpa hpb) hr
        simp [List.filter_cons, hpa, hpb, ih]

/-- Helper for C6: a stable sort does not reorder the elements satisfying a
predicate confined to one equivalence class of the sort key. -/
theorem filter_insertionSort {α : Type} (r : α → α → Prop) [DecidableRel r]
    (p : α → Bool) (hpr : ∀ a b, p a = true → p b = true → r a b) :
    ∀ l : List α, (List.insertionSort r l).filter p = l.filter p := by
  intro l
  induction l with
  | nil => rfl
  | cons a t ih =>
    rw [List.insertionSort, filter_orderedInsert r p a (fun b => hpr a b)]
    cases hpa : p a <;> simp [List.filter_cons, hpa, ih]

/-- Helper for C6: the catch-all suggestion is never produced by rules 1–5
(every rule's suggestion differs from it, already by title). -/
theorem review_not_mem_rules (r : rti_semantic.StructuredRTIResponse) :
    actionability.review_suggestion ∉ actionability.rule_suggestions r := by
  intro hm
  simp only [actionability.rule_suggestions, List.mem_append] at hm
  rcases hm with h | h | h | h | h <;> split_ifs at h <;> revert h <;> decide

/-- C6: for every structured response, the suggestion list is non-empty, its
priorities are monotonically non-ascending by position (sorted by the
high < medium < low key), equal-priority suggestions keep their rule-firing
order (the filter at each priority equals the filter of the unsorted
rule-firing list), and the catch-all "Review Response Carefully" suggestion
is present exactly when no other rule fired. -/
theorem claim6_suggestion_invariants (r : rti_semantic.StructuredRTIResponse) :
    actionability.suggest_next_steps r ≠ [] ∧
    List.Sorted actionability.suggestion_le (actionability.suggest_next_steps r) ∧
    (∀ pr : String,
      (actionability.suggest_next_steps r).filter (fun x => x.priority == pr) =
        (if (actionability.rule_suggestions r).isEmpty then
           [actionability.review_suggestion]
         else actionability.rule_suggestions r).filter
          (fun x => x.priority == pr)) ∧
    (actionability.review_suggestion ∈ actionability.suggest_next_steps r ↔
      actionability.rule_suggestions r = []) := by
  have hpr : ∀ (pr : String) (a b : actionability.ActionSuggestion),
      (a.priority == pr) = true → (b.priority == pr) = true →
      actionability.suggestion_le a b := by
    intro pr a b ha hb
    have ha' : a.priority = pr := by simpa using ha
    have hb' : b.priority = pr := by simpa using hb
    simp [actionability.suggestion_le, ha', hb']
  have hbase : (if (actionability.rule_suggestions r).isEmpty then
      [actionability.review_suggestion]
    else actionability.rule_suggestions r) ≠ [] := by
    rcases hE : (actionability.rule_suggestions r).isEmpty with _ | _
    · simp only [hE, Bool.false_eq_true, if_false]
      intro hnil
      rw [hnil] at hE
      simp at hE
    · simp only [hE, if_pos]
      simp
  refine ⟨?_, ?_, ?_, ?_⟩
  · intro h
    simp only [actionability.suggest_next_steps] at h
    have hperm := (List.perm_insertionSort actionability.suggestion_le
      (if (actionability.rule_suggestions r).isEmpty then
        [actionability.review_suggestion]
      else actionability.rule_suggestions r)).symm
    rw [h] at hperm
    exact hbase (List.Perm.eq_nil hperm)
  · exact List.sorted_insertionSort _ _
  · intro pr
    exact filter_insertionSort _ _ (hpr pr) _
  · constructor
    · intro hm
      rcases hE : (actionability.rule_suggestions r).isEmpty with _ | _
      · exfalso
        simp only [actionability.suggest_next_steps, hE, Bool.false_eq_true,
          if_false, List.mem_insertionSort] at hm
        exact review_not_mem_rules r hm
      · exact List.isEmpty_iff.mp hE
    · intro hnil
      simp only [actionability.suggest_next_steps, List.isEmpty_iff.mpr hnil,
        if_pos, List.mem_insertionSort]
      simp

/-- C7: `check_appeal_eligibility` returns `eligible = true` exactly when at
least one of the four conditions holds (denial present, exemption section
referenced, evasive sentence present, or no informative sentence with more
than 3 neutral ones); the reasons list carries exactly one fixed entry per
satisfied condition, and the deadline and authority texts are fixed. -/
theorem claim7_appeal_eligibility (r : rti_semantic.StructuredRTIResponse) :
    ((actionability.check_appeal_eligibility r).eligible = true ↔
      (0 < (rti_semantic.get_stats r).denial_count
       ∨ "section_8" ∈ r.section_references
       ∨ 0 < (rti_semantic.get_stats r).evasive_count
       ∨ ((rti_semantic.get_stats r).informative_count = 0
          ∧ 3 < (rti_semantic.get_stats r).neutral_count))) ∧
    (actionability.check_appeal_eligibility r).reasons.length =
      ((if 0 < (rti_semantic.get_stats r).denial_count then 1 else 0) +
       (if "section_8" ∈ r.section_references then 1 else 0) +
       (if 0 < (rti_semantic.get_stats r).evasive_count then 1 else 0) +
       (if (rti_semantic.get_stats r).informative_count = 0
          ∧ 3 < (rti_semantic.get_stats r).neutral_count then 1 else 0)) ∧
    ("Information was denied" ∈ (actionability.check_appeal_eligibility r).reasons
      ↔ 0 < (rti_semantic.get_stats r).denial_count) ∧
    ("Section 8 exemptions were cited" ∈ (actionability.check_appeal_eligibility r).reasons
      ↔ "section_8" ∈ r.section_references) ∧
    ("Response contains evasive/unclear statements" ∈ (actionability.check_appeal_eligibility r).reasons
      ↔ 0 < (rti_semantic.get_stats r).evasive_count) ∧
    ("Response does not adequately address the query" ∈ (actionability.check_appeal_eligibility r).reasons
      ↔ ((rti_semantic.get_stats r).informative_count = 0
         ∧ 3 < (rti_semantic.get_stats r).neutral_count)) ∧
    (actionability.check_appeal_eligibility r).appeal_type
      = "First Appeal under Section 19(1)" ∧
    (actionability.check_appeal_eligibility r).deadline
      = "30 days from receipt of response" ∧
    (actionability.check_appeal_eligibility r).authority
      = "First Appellate Authority (FAA)" := by
  simp only [actionability.check_appeal_eligibility]
  split_ifs with h1 h2 h3 h4 <;> simp_all

/-- Helper for C2/C3: `extract_fact_anchors` is empty, or is the first
components of a sublist of the sorted scored list, that sublist bounded by
`top_n` (threshold path) or by 2 (fallback path). -/
theorem extract_fact_anchors_cases (text : Str) (top_n : ℕ) :
    fact_extractor.extract_fact_anchors text top_n = [] ∨
    ∃ sub : List (Str × ℚ),
      sub.Sublist (List.insertionSort fact_extractor.score_ge
        (fact_extractor.scored_sentences text)) ∧
      fact_extractor.extract_fact_anchors text top_n = sub.map Prod.fst ∧
      (sub.length ≤ top_n ∨ sub.length ≤ 2) := by
  rcases hE : (fact_extractor.split_into_sentences text).isEmpty with _ | _
  · rcases hF : ((((List.insertionSort fact_extractor.score_ge
        (fact_extractor.scored_sentences text)).take top_n).filter
          (fun x => 1 ≤ x.2)).map Prod.fst).isEmpty with _ | _
    · right
      refine ⟨((List.insertionSort fact_extractor.score_ge
          (fact_extractor.scored_sentences text)).take top_n).filter
            (fun x => 1 ≤ x.2),
        (List.filter_sublist _).trans (List.take_sublist _ _), ?_,
        Or.inl (le_trans (List.length_filter_le _ _) (List.length_take_le _ _))⟩
      simp only [fact_extractor.extract_fact_anchors, hE, Bool.false_eq_true,
        if_false, hF]
    · right
      refine ⟨(List.insertionSort fact_extractor.score_ge
          (fact_extractor.scored_sentences text)).take 2,
        List.take_sublist _ _, ?_, Or.inr (List.length_take_le _ _)⟩
      simp only [fact_extractor.extract_fact_anchors, hE, Bool.false_eq_true,
        if_false, hF, if_pos]
  · left
    simp only [fact_extractor.extract_fact_anchors, hE, if_pos]

/-- Helper for C2/C3: every pair in the sorted scored list scores its own
sentence. -/
theorem snd_eq_score_of_mem_sorted {text : Str} {x : Str × ℚ}
    (hx : x ∈ List.insertionSort fact_extractor.score_ge
      (fact_extractor.scored_sentences text)) :
    x.2 = fact_extractor.calculate_sentence_score x.1 := by
  have hx2 : x ∈ fact_extractor.scored_sentences text :=
    (List.mem_insertionSort _).mp hx
  simp only [fact_extractor.scored_sentences, List.mem_map] at hx2
  rcases hx2 with ⟨s, _, rfl⟩
  rfl

/-- C2, counterexample: with `top_n = 1` and a document whose two sentences
both score 0 (below the 1.0 threshold), the fallback returns the top 2
sentences, so the output is longer than the requested count — refuting
"at most top_n" as universally stated. -/
theorem claim2_counterexample :
    (fact_extractor.extract_fact_anchors
      (chars "Nothing relevant here at all today. Nothing else is there now again.") 1).length = 2 ∧
    ¬ ((fact_extractor.extract_fact_anchors
      (chars "Nothing relevant here at all today. Nothing else is there now again.") 1).length ≤ 1) := by
  with_unfolding_all decide

/-- C2, amended: `extract_fact_anchors` returns at most `max top_n 2`
sentences (hence at most `top_n` whenever `top_n ≥ 2`; the below-threshold
fallback can return 2 sentences when `top_n < 2`), and the fact-density
scores of the returned sentences are non-increasing across the returned
sequence. -/
theorem claim2_length_and_sorted (text : Str) (top_n : ℕ) :
    (fact_extractor.extract_fact_anchors text top_n).length ≤ max top_n 2 ∧
    List.Sorted (fun a b : ℚ => b ≤ a)
      ((fact_extractor.extract_fact_anchors text top_n).map
        fact_extractor.calculate_sentence_score) := by
  rcases extract_fact_anchors_cases text top_n with h | ⟨sub, hsub, heq, hlen⟩
  · rw [h]
    exact ⟨by simp, List.sorted_nil⟩
  · constructor
    · rw [heq, List.length_map]
      rcases hlen with h2 | h2
      · exact le_trans h2 (le_max_left _ _)
      · exact le_trans h2 (le_max_right _ _)
    · rw [heq]
      have hP : List.Pairwise fact_extractor.score_ge sub :=
        List.Pairwise.sublist hsub (List.sorted_insertionSort _ _)
      have hmapeq : (sub.map Prod.fst).map fact_extractor.calculate_sentence_score
          = sub.map Prod.snd := by
        rw [List.map_map]
        apply List.map_congr_left
        intro x hx
        exact (snd_eq_score_of_mem_sorted (hsub.subset hx)).symm
      rw [hmapeq]
      exact List.pairwise_map.mpr hP

/-- C3, counterexample: a document repeating the same sentence twice yields
that sentence twice among the fact anchors — `extract_fact_anchors` performs
no deduplication, refuting "no sentence appears twice" as universally
stated. -/
theorem claim3_counterexample :
    ¬ (fact_extractor.extract_fact_anchors
      (chars "The officer granted the records fully today. The officer granted the records fully today.") 5).Nodup := by
  with_unfolding_all decide

/-- C3, amended: the returned fact anchors are drawn from distinct sentence
occurrences, so whenever the segmented sentences of the document are pairwise
distinct the output contains no duplicated sentence string (duplicates can
only arise from a sentence duplicated in the document itself). -/
theorem claim3_no_duplicates (text : Str) (top_n : ℕ)
    (h : (fact_extractor.split_into_sentences text).Nodup) :
    (fact_extractor.extract_fact_anchors text top_n).Nodup := by
  have hfst : (fact_extractor.scored_sentences text).map Prod.fst
      = fact_extractor.split_into_sentences text := by
    simp only [fact_extractor.scored_sentences, List.map_map]
    exact (List.map_congr_left (fun x _ => rfl)).trans (List.map_id _)
  have hperm : List.Perm
      ((List.insertionSort fact_extractor.score_ge
        (fact_extractor.scored_sentences text)).map Prod.fst)
      (fact_extractor.split_into_sentences text) := by
    rw [← hfst]
    exact List.Perm.map Prod.fst (List.perm_insertionSort _ _)
  have hsorted_nodup : ((List.insertionSort fact_extractor.score_ge
      (fact_extractor.scored_sentences text)).map Prod.fst).Nodup :=
    hperm.nodup_iff.mpr h
  rcases extract_fact_anchors_cases text top_n with h0 | ⟨sub, hsub, heq, _⟩
  · rw [h0]; exact List.nodup_nil
  · rw [heq]
    exact List.Nodup.sublist (hsub.map Prod.fst) hsorted_nodup

/-- C3, witness: a two-sentence document with distinct sentences satisfies
the hypothesis, and its anchors carry no duplicate. -/
theorem claim3_witness :
    (fact_extractor.split_into_sentences
      (chars "Records were provided to you last month. The matter is closed permanently now.")).Nodup ∧
    (fact_extractor.extract_fact_anchors
      (chars "Records were provided to you last month. The matter is closed permanently now.") 5).Nodup :=
  ⟨by with_unfolding_all decide,
   claim3_no_duplicates
     (chars "Records were provided to you last month. The matter is closed permanently now.") 5
     (by with_unfolding_all decide)⟩
